import Mathlib

/-!
# rDSN hpc network provider (hpc_network_provider.linux.cpp)

A shallow embedding of the transport layer found in
`src/hpc_network_provider.linux.cpp`: the socket factory `create_tcp_socket`,
the provider operations `start` and `on_events_ready`, and the session
machinery (`do_read`, `do_write`, `close`, `on_failure`, `connect` and the
three completion continuations).

Conventions.
* Every session carries a chronological `log` of the observable effects it
  produced (reference count changes, invocations of the asynchronous
  primitives, socket closes and upward notifications).
* The operating system and the reactor are external.  The outcome of every
  call that the code makes into them is an explicit input: the record
  `SockEnv` for the socket factory, `StartEnv` and `AcceptEnv` for the
  provider, the field `sync_fail` of a session for the immediate result of
  each invocation of an asynchronous primitive, and the arguments of a
  completion for what the reactor and the message parser deliver.
* `dassert (false, ..)` aborts the process; an aborted call returns `none`.
-/

namespace HpcNet

/-! ## Socket factory -/

/-- Results of the operating system calls made by `create_tcp_socket`, in the
order in which the function makes them. -/
structure SockEnv where
  socket_ret : Int
  nodelay_ret : Int
  dontlinger_ret : Int
  sndbuf_ret : Int
  rcvbuf_ret : Int
  keepalive_ret : Int
  bind_ret : Int
  deriving DecidableEq, Repr

/-- The `sockaddr_in` handed to `bind`: `(sin_addr.s_addr, sin_port)`. -/
abbrev SockAddr := Nat × Nat

/-- What the factory does with the value `s`: the operating system calls it
issues on it and the warnings it logs. -/
inductive SysCall
  | setsockopt (fd : Int) (opt : Nat) (value : Int)
  | dwarn (opt : Nat)
  | bind (fd : Int) (addr : SockAddr)
  | derror_bind
  | closesocket (fd : Int)
  deriving DecidableEq, Repr

def TCP_NODELAY : Nat := 0
def SO_DONTLINGER : Nat := 1
def SO_SNDBUF : Nat := 2
def SO_RCVBUF : Nat := 3
def SO_KEEPALIVE : Nat := 4

/-- One `if (setsockopt (s, .., opt, &value, ..) != 0) dwarn (..)`. -/
def set_option_or_warn (s : Int) (opt : Nat) (value : Int) (ret : Int) : List SysCall :=
  if ret ≠ 0 then [SysCall.setsockopt s opt value, SysCall.dwarn opt]
  else [SysCall.setsockopt s opt value]

/-- The function `create_tcp_socket` (lines 44-95).  The condition of the first
`if` is `s = socket(..) == -1`: the comparison binds tighter than the
assignment, so `s` receives the truth value of `socket(..) == -1` (1 or 0), not
the descriptor, and every later call uses that `s`.  The result is the
returned `int` together with what was done on `s`. -/
def create_tcp_socket (addr : Option SockAddr) (env : SockEnv) : Int × List SysCall :=
  let s : Int := if env.socket_ret = -1 then 1 else 0
  if s ≠ 0 then (-1, [])
  else
    let calls : List SysCall :=
      set_option_or_warn s TCP_NODELAY 1 env.nodelay_ret ++
      set_option_or_warn s SO_DONTLINGER 1 env.dontlinger_ret ++
      set_option_or_warn s SO_SNDBUF 0 env.sndbuf_ret ++
      set_option_or_warn s SO_RCVBUF (8 * 1024 * 1024) env.rcvbuf_ret ++
      set_option_or_warn s SO_KEEPALIVE 0 env.keepalive_ret
    match addr with
    | none => (s, calls)
    | some a =>
      if env.bind_ret ≠ 0 then
        (-1, calls ++ [SysCall.bind s a, SysCall.derror_bind, SysCall.closesocket s])
      else (s, calls ++ [SysCall.bind s a])

/-! ## Sessions -/

/-- A message is identified by a number. -/
abbrev Msg := Nat

inductive session_state
  | SS_CLOSED
  | SS_CONNECTING
  | SS_CONNECTED
  deriving DecidableEq, Repr

inductive Kind
  | client
  | server
  deriving DecidableEq, Repr

/-- An asynchronous operation handed to the reactor: `ConnectEx`, `WSARecv`
after `read_buffer_ptr (sz)`, or `WSASend` of a message. -/
inductive Op
  | connect
  | recv (sz : Int)
  | send (msg : Msg)
  deriving DecidableEq, Repr

/-- Observable effects of a session, in the order in which they happen.
`issue op pending` is an invocation of the asynchronous primitive of `op`;
`pending = false` means that the call failed at once with an error other than
`ERROR_IO_PENDING`.  `finished` marks the point where a completion
continuation has run its body and is about to give up its reference. -/
inductive Effect
  | add_ref
  | release_ref
  | issue (op : Op) (pending : Bool)
  | finished
  | closesocket (fd : Int)
  | on_closed
  | on_disconnected
  | on_read_completed (msg : Msg)
  | on_write_completed (msg : Msg)
  deriving DecidableEq, Repr

/-- One session.  `state` and `reconnect_count` are the members `_state` and
`_reconnect_count` of a client session (a server session has neither and
never reads them).  `refs` is the liveness reference count, `pending` the
operations that the reactor holds and has not completed yet, `queue` the
messages that the base class keeps for `send_messages`, `sync_fail` the
results of the coming invocations of asynchronous primitives (`true`: the
call fails at once; an exhausted list: the call is pending),
`default_read_sz` the default argument of `do_read` declared in the header,
and `write_event_msg` the message captured by the continuation that is
currently stored in the single member `_write_event.callback`. -/
structure Session where
  kind : Kind
  rw_fd : Int
  remote_addr : Nat × Nat
  state : session_state
  reconnect_count : Nat
  refs : Int
  pending : List Op
  queue : List Msg
  sync_fail : List Bool
  default_read_sz : Int
  write_event_msg : Option Msg
  log : List Effect
  deriving DecidableEq, Repr

def emit (e : Effect) (s : Session) : Session :=
  { s with log := s.log ++ [e] }

def add_reference (s : Session) : Session :=
  emit Effect.add_ref { s with refs := s.refs + 1 }

def release_reference (s : Session) : Session :=
  emit Effect.release_ref { s with refs := s.refs - 1 }

/-- Invocation of the asynchronous primitive of `op`.  The first component is
`true` when the operation is now pending in the reactor and `false` when the
call failed synchronously. -/
def issue (op : Op) (s : Session) : Bool × Session :=
  if s.sync_fail.headD false then
    (false, emit (Effect.issue op false) { s with sync_fail := s.sync_fail.tail })
  else
    (true, emit (Effect.issue op true)
      { s with sync_fail := s.sync_fail.tail, pending := s.pending ++ [op] })

/-- The method `hpc_rpc_session::close` (lines 309-313). -/
def close (s : Session) : Session :=
  emit Effect.on_closed (emit (Effect.closesocket s.rw_fd) s)

/-- Modelled from the spec: the failure handler of a server session, which is
declared in the header and not part of the source file.  "Has no reconnect
concept: on failure it closes and notifies on closed / on disconnected". -/
def on_failure_server (s : Session) : Session :=
  emit Effect.on_disconnected (close s)

mutual
/-- The method `hpc_rpc_client_session::on_failure` (lines 328-340). -/
def on_failure_client (s : Session) : Session :=
  if s.reconnect_count + 1 > 3 then
    emit Effect.on_disconnected
      (close { s with state := session_state.SS_CLOSED,
                      reconnect_count := s.reconnect_count + 1 })
  else
    connect { s with state := session_state.SS_CLOSED,
                     reconnect_count := s.reconnect_count + 1 }
termination_by 2 * (4 - s.reconnect_count)
decreasing_by
  simp_wf
  omega
/-- The method `hpc_rpc_client_session::connect` (lines 342-400), up to the
point where the continuation is handed to the reactor. -/
def connect (s : Session) : Session :=
  if s.state ≠ session_state.SS_CLOSED then s
  else
    if (issue Op.connect
          (add_reference { s with state := session_state.SS_CONNECTING })).1 then
      (issue Op.connect
          (add_reference { s with state := session_state.SS_CONNECTING })).2
    else
      on_failure_client (release_reference (issue Op.connect
          (add_reference { s with state := session_state.SS_CONNECTING })).2)
termination_by 2 * (4 - s.reconnect_count) + 1
decreasing_by
  simp_wf
  simp [issue, add_reference, release_reference, emit]
  split <;> simp
end

/-- The virtual `on_failure` of a session. -/
def on_failure (s : Session) : Session :=
  match s.kind with
  | Kind.client => on_failure_client s
  | Kind.server => on_failure_server s

/-- The method `hpc_rpc_session::do_read` (lines 209-263), up to the point
where the continuation is handed to the reactor. -/
def do_read (sz : Int) (s : Session) : Session :=
  if (issue (Op.recv sz) (add_reference s)).1 then
    (issue (Op.recv sz) (add_reference s)).2
  else
    on_failure (release_reference (issue (Op.recv sz) (add_reference s)).2)

/-- The method `hpc_rpc_session::do_write` (lines 265-307), up to the point
where the continuation is handed to the reactor.  The continuation that
captures `msg` is stored in `_write_event.callback` (line 268), replacing the
one stored by an earlier `do_write`. -/
def do_write (msg : Msg) (s : Session) : Session :=
  if (issue (Op.send msg) (add_reference { s with write_event_msg := some msg })).1 then
    (issue (Op.send msg) (add_reference { s with write_event_msg := some msg })).2
  else
    on_failure (release_reference
      (issue (Op.send msg) (add_reference { s with write_event_msg := some msg })).2)

/-- Writes the given messages one after the other. -/
def write_all : List Msg → Session → Session
  | [], s => s
  | m :: rest, s => write_all rest (do_write m s)

/-- Modelled from the spec: `send_messages` of the client session base class,
which is not part of the source file.  "Flush any messages queued while
disconnected", "in enqueue order": the queue is emptied and every message
that was in it is written through `do_write`. -/
def send_messages (s : Session) : Session :=
  write_all s.queue { s with queue := [] }

/-- The loop `while (msg != nullptr)` of the read continuation: the parser
yields the messages `msgs` one by one, then a null pointer. -/
def dispatch_messages : List Msg → Session → Session
  | [], s => s
  | m :: rest, s => dispatch_messages rest (emit (Effect.on_read_completed m) s)

/-- The continuation installed by `do_read` (lines 213-235).  `err` and
`length` come from the reactor (`ERROR_SUCCESS` is 0); `msgs` are the messages
that `get_message_on_receive` yields before it returns a null pointer and
`read_next` is the size it reported last. -/
def read_callback (err : Int) (length : Nat) (msgs : List Msg) (read_next : Int)
    (s : Session) : Session :=
  release_reference (emit Effect.finished
    (if err ≠ 0 then on_failure s
     else do_read read_next (dispatch_messages msgs s)))

/-- The continuation installed by `do_write` (lines 268-281). -/
def write_callback (msg : Msg) (err : Int) (length : Nat) (s : Session) : Session :=
  release_reference (emit Effect.finished
    (if err ≠ 0 then on_failure s
     else emit (Effect.on_write_completed msg) s))

/-- The continuation installed by `connect` (lines 350-372). -/
def connect_callback (err : Int) (io_size : Nat) (s : Session) : Session :=
  release_reference (emit Effect.finished
    (if err ≠ 0 then on_failure_client s
     else
       do_read s.default_read_sz
         (send_messages { s with reconnect_count := 0,
                                 state := session_state.SS_CONNECTED })))

/-- What can happen to a session: a call of one of its methods, or the
reactor delivering the completion of the pending operation at position `i`
(with what the parser yields, used when that operation is a receive). -/
inductive Event
  | call_connect
  | call_do_read (sz : Int)
  | call_do_write (msg : Msg)
  | completion (i : Nat) (err : Int) (length : Nat) (msgs : List Msg) (read_next : Int)
  deriving DecidableEq, Repr

/-- Delivery of a completion: the operation leaves the reactor and its
continuation runs.  A connect has a continuation of its own (a fresh `evt`
per attempt).  All receives share `_read_event.callback` and all sends share
`_write_event.callback`: for a send the continuation that runs is the one
stored by the latest `do_write`, with the message that one captured. -/
def complete (i : Nat) (err : Int) (length : Nat) (msgs : List Msg) (read_next : Int)
    (s : Session) : Session :=
  match s.pending.get? i with
  | none => s
  | some Op.connect => connect_callback err length { s with pending := s.pending.eraseIdx i }
  | some (Op.recv _) =>
    read_callback err length msgs read_next { s with pending := s.pending.eraseIdx i }
  | some (Op.send m) =>
    write_callback (s.write_event_msg.getD m) err length
      { s with pending := s.pending.eraseIdx i }

def step (s : Session) : Event → Session
  | Event.call_connect => connect s
  | Event.call_do_read sz => do_read sz s
  | Event.call_do_write m => do_write m s
  | Event.completion i err length msgs read_next => complete i err length msgs read_next s

def run (s : Session) (evs : List Event) : Session :=
  evs.foldl step s

/-- The constructor of `hpc_rpc_client_session` (lines 315-326): state
`SS_CLOSED`, reconnect count 0.  `owners` is the number of references held by
the code that created the session. -/
def hpc_rpc_client_session_new (sock : Int) (remote : Nat × Nat) (owners : Nat)
    (sync_fail : List Bool) (default_read_sz : Int) : Session :=
  { kind := Kind.client, rw_fd := sock, remote_addr := remote,
    state := session_state.SS_CLOSED, reconnect_count := 0, refs := owners,
    pending := [], queue := [], sync_fail := sync_fail,
    default_read_sz := default_read_sz, write_event_msg := none, log := [] }

/-- The constructor of `hpc_rpc_server_session` (lines 402-411): the base is
built on `sock` and the first read is armed at once. -/
def hpc_rpc_server_session_new (sock : Int) (remote : Nat × Nat) (owners : Nat)
    (sync_fail : List Bool) (default_read_sz : Int) : Session :=
  do_read default_read_sz
    { kind := Kind.server, rw_fd := sock, remote_addr := remote,
      state := session_state.SS_CONNECTED, reconnect_count := 0, refs := owners,
      pending := [], queue := [], sync_fail := sync_fail,
      default_read_sz := default_read_sz, write_event_msg := none, log := [] }

/-! ## Network provider -/

inductive error_code
  | ERR_OK
  | ERR_SERVICE_ALREADY_RUNNING
  | ERR_NETWORK_START_FAILED
  deriving DecidableEq, Repr

inductive rpc_channel
  | RPC_CHANNEL_TCP
  | RPC_CHANNEL_UDP
  | other (id : Nat)
  deriving DecidableEq, Repr

/-- The provider: `_listen_fd`, `_address` as (host name, 16 bit port), the member
`_accept_event.s` (declared in the header; nothing in the source file assigns
it), the handles registered with the looper and the server sessions handed to
`on_server_session_accepted`. -/
structure Provider where
  listen_fd : Int
  address : Nat × Nat
  accept_event_s : Int
  bound_handles : List Int
  accepted : List Session
  deriving DecidableEq, Repr

/-- The constructor of `hpc_network_provider` (lines 98-103). -/
def hpc_network_provider_new (accept_event_s : Int) : Provider :=
  { listen_fd := -1, address := (0, 0), accept_event_s := accept_event_s,
    bound_handles := [], accepted := [] }

/-- Results of the operating system calls made by `start`. -/
structure StartEnv where
  hostname : Nat
  sock : SockEnv
  reuseaddr_ret : Int
  listen_ret : Int
  deriving DecidableEq, Repr

def INADDR_ANY : Nat := 0

/-- Conversion of an `int` to an unsigned 16 bit field. -/
def to_uint16 (port : Int) : Nat := (port % 65536).toNat

/-- The argument of `htons` is a 16 bit value; the result is that value in
network byte order (on a little-endian host the two bytes are swapped). -/
def htons (port : Int) : Nat := (to_uint16 port % 256) * 256 + to_uint16 port / 256

/-- The address that `dsn_address_build` stores in `_address`: the host name and
the port as the 16 bit field of `dsn_address_t`. -/
def dsn_address_build (name : Nat) (port : Int) : Nat × Nat := (name, to_uint16 port)

/-- The method `hpc_network_provider::start` (lines 105-146).  A failed
`dassert` gives `none`. -/
def start (p : Provider) (channel : rpc_channel) (port : Int) (client_only : Bool)
    (env : StartEnv) : Option (error_code × Provider) :=
  if p.listen_fd ≠ -1 then some (error_code.ERR_SERVICE_ALREADY_RUNNING, p)
  else if ¬ (channel = rpc_channel.RPC_CHANNEL_TCP ∨ channel = rpc_channel.RPC_CHANNEL_UDP) then
    none
  else if !client_only then
    if (create_tcp_socket (some (INADDR_ANY, htons port)) env.sock).1 = -1 then none
    else if env.listen_ret ≠ 0 then
      some (error_code.ERR_NETWORK_START_FAILED,
        { p with address := dsn_address_build env.hostname port,
                 listen_fd := (create_tcp_socket (some (INADDR_ANY, htons port)) env.sock).1 })
    else
      some (error_code.ERR_OK,
        { p with address := dsn_address_build env.hostname port,
                 listen_fd := (create_tcp_socket (some (INADDR_ANY, htons port)) env.sock).1,
                 bound_handles := p.bound_handles ++
                   [(create_tcp_socket (some (INADDR_ANY, htons port)) env.sock).1] })
  else
    some (error_code.ERR_OK, { p with address := dsn_address_build env.hostname port })

/-- What the operating system and the reactor deliver during one call of
`on_events_ready`: the value returned by `accept`, the peer address that
`getpeername` reports for a socket (`none`: `SOCKET_ERROR`), and the immediate
results of the asynchronous calls of the new session. -/
structure AcceptEnv where
  accept_ret : Int
  getpeername : Int → Option (Nat × Nat)
  sync_fail : List Bool
  default_read_sz : Int

/-- The method `hpc_network_provider::on_events_ready` (lines 165-198).  The
server session is constructed on `_accept_event.s` (line 195). -/
def on_events_ready (p : Provider) (events : Nat) (env : AcceptEnv) : Option Provider :=
  if env.accept_ret = -1 then some p
  else
    match env.getpeername env.accept_ret with
    | none => none
    | some client_addr =>
      some { p with accepted := p.accepted ++
        [hpc_rpc_server_session_new p.accept_event_s client_addr 0
          env.sync_fail env.default_read_sz] }

/-! ## Reading the log -/

/-- Change of the reference count caused by an effect. -/
def Effect.dref : Effect → Int
  | Effect.add_ref => 1
  | Effect.release_ref => -1
  | _ => 0

/-- Change of the number of issued operations whose continuation has not
finished. -/
def Effect.dout : Effect → Int
  | Effect.issue _ true => 1
  | Effect.finished => -1
  | _ => 0

def ref_delta (log : List Effect) : Int := (log.map Effect.dref).sum

def outstanding (log : List Effect) : Int := (log.map Effect.dout).sum

/-- Replays a history from a reference count `refs` and `out` unfinished
operations and checks, before and after every effect, that the count is at
least the number of unfinished operations. -/
def ref_safe_from (refs out : Int) : List Effect → Bool
  | [] => decide (out ≤ refs)
  | e :: es => decide (out ≤ refs) && ref_safe_from (refs + e.dref) (out + e.dout) es

/-- The history `log` of a session created with `owners` references is safe. -/
def ref_safe (owners : Int) (log : List Effect) : Prop :=
  ref_safe_from owners 0 log = true

instance (owners : Int) (log : List Effect) : Decidable (ref_safe owners log) := by
  unfold ref_safe
  infer_instance

/-- Number of invocations of `ConnectEx`. -/
def connect_attempts (log : List Effect) : Nat :=
  (log.filter (fun e => e = Effect.issue Op.connect true ∨ e = Effect.issue Op.connect false)).length

/-- Number of times the socket was closed. -/
def closes (log : List Effect) : Nat :=
  (log.filter (fun e => match e with
    | Effect.closesocket _ => true
    | _ => false)).length

/-- Number of `on_disconnected` notifications. -/
def disconnects (log : List Effect) : Nat := log.count Effect.on_disconnected

/-- The reactor completes, one after the other, the oldest pending operation
with the given error codes. -/
def fail_completions (errs : List Int) (s : Session) : Session :=
  errs.foldl (fun acc e => complete 0 e 0 [] 0 acc) s

/-- The step from `s` to `t` keeps the books: the reference count moves with
the adds and releases of the log, the pending list with the issues and
finishes, references and unfinished operations change by the same amount, and
a safe history stays safe. -/
structure Bal (s t : Session) : Prop where
  refs : t.refs - ref_delta t.log = s.refs - ref_delta s.log
  out : outstanding t.log - t.pending.length = outstanding s.log - s.pending.length
  margin : ref_delta t.log - outstanding t.log = ref_delta s.log - outstanding s.log
  safe : ∀ owners : Int, ref_safe owners s.log → ref_safe owners t.log

/-- The books of a session between two events: its history is safe, its
reference count is what the creator holds plus the adds and releases of the
log, and both the references taken and the unfinished operations of the log
are the pending operations. -/
def Quiescent (owners : Int) (s : Session) : Prop :=
  ref_safe owners s.log ∧ s.refs = owners + ref_delta s.log ∧
    outstanding s.log = s.pending.length ∧ ref_delta s.log = outstanding s.log

/-! # Properties -/

/-! ## The failure handling of a client session, unfolded -/

theorem on_failure_client_giveup (s : Session) (h : 3 ≤ s.reconnect_count) :
    on_failure_client s =
      emit Effect.on_disconnected
        (close { s with state := session_state.SS_CLOSED,
                        reconnect_count := s.reconnect_count + 1 }) := by
  rw [on_failure_client]
  have : s.reconnect_count + 1 > 3 := by omega
  simp [this]

theorem on_failure_client_retry (s : Session) (h : s.reconnect_count < 3) :
    on_failure_client s =
      connect { s with state := session_state.SS_CLOSED,
                       reconnect_count := s.reconnect_count + 1 } := by
  rw [on_failure_client]
  have : ¬ (s.reconnect_count + 1 > 3) := by omega
  simp [this]

theorem connect_not_closed (s : Session) (h : s.state ≠ session_state.SS_CLOSED) :
    connect s = s := by
  rw [connect]
  simp [h]

theorem connect_closed (s : Session) (h : s.state = session_state.SS_CLOSED) :
    connect s =
      if (issue Op.connect
          (add_reference { s with state := session_state.SS_CONNECTING })).1 then
        (issue Op.connect
          (add_reference { s with state := session_state.SS_CONNECTING })).2
      else
        on_failure_client (release_reference (issue Op.connect
          (add_reference { s with state := session_state.SS_CONNECTING })).2) := by
  rw [connect]
  simp [h]

/-- Case analysis along the failure cascade of a client session: giving up,
a new connect attempt that is pending, or a new connect attempt that fails at
once and re-enters the failure handler. -/
theorem on_failure_client_cases (P : Session → Session → Prop)
    (giveup : ∀ s : Session, 3 ≤ s.reconnect_count →
      P s (emit Effect.on_disconnected
        (close { s with state := session_state.SS_CLOSED,
                        reconnect_count := s.reconnect_count + 1 })))
    (pend : ∀ s : Session, s.reconnect_count < 3 →
      (issue Op.connect (add_reference
        { s with state := session_state.SS_CONNECTING,
                 reconnect_count := s.reconnect_count + 1 })).1 = true →
      P s (issue Op.connect (add_reference
        { s with state := session_state.SS_CONNECTING,
                 reconnect_count := s.reconnect_count + 1 })).2)
    (retry : ∀ s s' : Session, s.reconnect_count < 3 →
      (issue Op.connect (add_reference
        { s with state := session_state.SS_CONNECTING,
                 reconnect_count := s.reconnect_count + 1 })).1 = false →
      P (release_reference (issue Op.connect (add_reference
        { s with state := session_state.SS_CONNECTING,
                 reconnect_count := s.reconnect_count + 1 })).2) s' →
      P s s') :
    ∀ s : Session, P s (on_failure_client s) := by
  intro s
  generalize hn : 3 - s.reconnect_count = n
  induction n generalizing s with
  | zero =>
    rw [on_failure_client_giveup s (by omega)]
    exact giveup s (by omega)
  | succ n ih =>
    have hlt : s.reconnect_count < 3 := by omega
    rw [on_failure_client_retry s hlt, connect_closed _ rfl]
    by_cases hf : (issue Op.connect (add_reference
        { s with state := session_state.SS_CONNECTING,
                 reconnect_count := s.reconnect_count + 1 })).1 = true
    · simp only []
      rw [if_pos hf]
      exact pend s hlt hf
    · simp only []
      rw [if_neg hf]
      apply retry s _ hlt (by simpa using hf)
      apply ih
      simp only [release_reference, emit, add_reference, issue]
      split <;> simp <;> omega

/-! ## Reference balance -/

theorem ref_delta_cons (e : Effect) (l : List Effect) :
    ref_delta (e :: l) = e.dref + ref_delta l := by
  simp [ref_delta]

theorem outstanding_cons (e : Effect) (l : List Effect) :
    outstanding (e :: l) = e.dout + outstanding l := by
  simp [outstanding]

theorem ref_delta_concat (l : List Effect) (e : Effect) :
    ref_delta (l ++ [e]) = ref_delta l + e.dref := by
  simp [ref_delta]

theorem outstanding_concat (l : List Effect) (e : Effect) :
    outstanding (l ++ [e]) = outstanding l + e.dout := by
  simp [outstanding]

theorem ref_safe_from_concat (r o : Int) (l : List Effect) (e : Effect) :
    ref_safe_from r o (l ++ [e]) = true ↔
      ref_safe_from r o l = true ∧
        o + outstanding l + e.dout ≤ r + ref_delta l + e.dref := by
  induction l generalizing r o with
  | nil =>
    simp [ref_safe_from, outstanding, ref_delta]
  | cons a l ih =>
    have unfold_cons : ref_safe_from r o ((a :: l) ++ [e]) =
        (decide (o ≤ r) && ref_safe_from (r + a.dref) (o + a.dout) (l ++ [e])) := rfl
    rw [unfold_cons]
    simp only [ref_safe_from, Bool.and_eq_true, decide_eq_true_eq, ih,
      outstanding_cons, ref_delta_cons]
    constructor
    · rintro ⟨h1, h2, h3⟩
      exact ⟨⟨h1, h2⟩, by omega⟩
    · rintro ⟨⟨h1, h2⟩, h3⟩
      exact ⟨h1, h2, by omega⟩

theorem ref_safe_concat (owners : Int) (l : List Effect) (e : Effect) :
    ref_safe owners (l ++ [e]) ↔
      ref_safe owners l ∧ outstanding l + e.dout ≤ owners + ref_delta l + e.dref := by
  unfold ref_safe
  rw [ref_safe_from_concat]
  simp

theorem ref_safe_margin (owners : Int) (l : List Effect) (h : ref_safe owners l) :
    outstanding l ≤ owners + ref_delta l := by
  rcases List.eq_nil_or_concat l with rfl | ⟨l', e, rfl⟩
  · simpa [ref_safe, ref_safe_from, outstanding, ref_delta] using h
  · have := (ref_safe_concat owners l' e).1 (by simpa using h)
    rw [List.concat_eq_append, outstanding_concat, ref_delta_concat]
    omega

theorem Bal.refl (s : Session) : Bal s s :=
  ⟨rfl, rfl, rfl, fun _ h => h⟩

theorem Bal.trans {s t u : Session} (h1 : Bal s t) (h2 : Bal t u) : Bal s u :=
  ⟨h2.refs.trans h1.refs, h2.out.trans h1.out, h2.margin.trans h1.margin,
    fun o h => h2.safe o (h1.safe o h)⟩

theorem Bal.of_same {s t : Session} (h1 : t.refs = s.refs) (h2 : t.log = s.log)
    (h3 : t.pending = s.pending) : Bal s t := by
  refine ⟨?_, ?_, ?_, ?_⟩
  · rw [h1, h2]
  · rw [h2, h3]
  · rw [h2]
  · intro o h
    rw [h2]
    exact h

theorem bal_emit_neutral (e : Effect) (s : Session) (h1 : e.dref = 0) (h2 : e.dout = 0) :
    Bal s (emit e s) := by
  refine ⟨?_, ?_, ?_, ?_⟩
  · simp [emit, ref_delta_concat, h1]
  · simp [emit, outstanding_concat, h2]
  · simp [emit, outstanding_concat, ref_delta_concat, h1, h2]
  · intro o h
    have hm := ref_safe_margin o s.log h
    simp only [emit]
    rw [ref_safe_concat]
    exact ⟨h, by omega⟩

theorem issue_pending_eq (op : Op) (s : Session) (h : (issue op s).1 = true) :
    (issue op s).2 = emit (Effect.issue op true)
      { s with sync_fail := s.sync_fail.tail, pending := s.pending ++ [op] } := by
  unfold issue at h ⊢
  split at h
  · simp at h
  · rename_i hf
    rw [if_neg hf]

theorem issue_failed_eq (op : Op) (s : Session) (h : (issue op s).1 = false) :
    (issue op s).2 = emit (Effect.issue op false)
      { s with sync_fail := s.sync_fail.tail } := by
  unfold issue at h ⊢
  split at h
  · rename_i hf
    rw [if_pos hf]
  · simp at h

theorem bal_issue_pending (op : Op) (s : Session)
    (h : (issue op (add_reference s)).1 = true) :
    Bal s (issue op (add_reference s)).2 := by
  rw [issue_pending_eq _ _ h]
  refine ⟨?_, ?_, ?_, ?_⟩
  · simp only [emit, add_reference, ref_delta_concat, Effect.dref]
    omega
  · simp only [emit, add_reference, outstanding_concat, Effect.dout, List.length_append,
      List.length_singleton]
    push_cast
    omega
  · simp only [emit, add_reference, outstanding_concat, ref_delta_concat, Effect.dref,
      Effect.dout]
    omega
  · intro o hs
    have hm := ref_safe_margin o s.log hs
    simp only [emit, add_reference]
    rw [ref_safe_concat, ref_safe_concat]
    simp only [outstanding_concat, ref_delta_concat, Effect.dref, Effect.dout]
    exact ⟨⟨hs, by omega⟩, by omega⟩

theorem bal_issue_failed (op : Op) (s : Session)
    (h : (issue op (add_reference s)).1 = false) :
    Bal s (release_reference (issue op (add_reference s)).2) := by
  rw [issue_failed_eq _ _ h]
  refine ⟨?_, ?_, ?_, ?_⟩
  · simp only [emit, add_reference, release_reference, ref_delta_concat, Effect.dref]
    omega
  · simp only [emit, add_reference, release_reference, outstanding_concat, Effect.dout]
    omega
  · simp only [emit, add_reference, release_reference, outstanding_concat,
      ref_delta_concat, Effect.dref, Effect.dout]
    omega
  · intro o hs
    have hm := ref_safe_margin o s.log hs
    simp only [emit, add_reference, release_reference]
    rw [ref_safe_concat, ref_safe_concat, ref_safe_concat]
    simp only [outstanding_concat, ref_delta_concat, Effect.dref, Effect.dout]
    exact ⟨⟨⟨hs, by omega⟩, by omega⟩, by omega⟩

theorem bal_close_notify (s : Session) : Bal s (emit Effect.on_disconnected (close s)) := by
  unfold close
  have h1 := bal_emit_neutral (Effect.closesocket s.rw_fd) s rfl rfl
  have h2 := bal_emit_neutral Effect.on_closed (emit (Effect.closesocket s.rw_fd) s) rfl rfl
  have h3 := bal_emit_neutral Effect.on_disconnected
    (emit Effect.on_closed (emit (Effect.closesocket s.rw_fd) s)) rfl rfl
  exact (h1.trans h2).trans h3

theorem bal_on_failure_client : ∀ s : Session, Bal s (on_failure_client s) := by
  apply on_failure_client_cases
  · intro s _
    refine Bal.trans ?_ (bal_close_notify _)
    exact Bal.of_same rfl rfl rfl
  · intro s _ h
    refine Bal.trans ?_ (bal_issue_pending _ _ h)
    exact Bal.of_same rfl rfl rfl
  · intro s t _ h ht
    refine Bal.trans ?_ ht
    refine Bal.trans ?_ (bal_issue_failed _ _ h)
    exact Bal.of_same rfl rfl rfl

theorem bal_connect (s : Session) : Bal s (connect s) := by
  by_cases hc : s.state = session_state.SS_CLOSED
  · rw [connect_closed s hc]
    split
    · rename_i h
      refine Bal.trans ?_ (bal_issue_pending _ _ h)
      exact Bal.of_same rfl rfl rfl
    · rename_i h
      refine Bal.trans ?_ (bal_on_failure_client _)
      refine Bal.trans ?_ (bal_issue_failed _ _ (by simpa using h))
      exact Bal.of_same rfl rfl rfl
  · rw [connect_not_closed s hc]
    exact Bal.refl s

theorem bal_on_failure (s : Session) : Bal s (on_failure s) := by
  unfold on_failure
  split
  · exact bal_on_failure_client s
  · exact bal_close_notify s

theorem bal_do_read (sz : Int) (s : Session) : Bal s (do_read sz s) := by
  unfold do_read
  split
  · rename_i h
    exact bal_issue_pending _ _ h
  · rename_i h
    exact (bal_issue_failed _ _ (by simpa using h)).trans (bal_on_failure _)

theorem bal_do_write (m : Msg) (s : Session) : Bal s (do_write m s) := by
  unfold do_write
  split
  · rename_i h
    refine Bal.trans ?_ (bal_issue_pending _ _ h)
    exact Bal.of_same rfl rfl rfl
  · rename_i h
    refine Bal.trans ?_ (bal_on_failure _)
    refine Bal.trans ?_ (bal_issue_failed _ _ (by simpa using h))
    exact Bal.of_same rfl rfl rfl

theorem bal_write_all (ms : List Msg) : ∀ s : Session, Bal s (write_all ms s) := by
  induction ms with
  | nil => intro s; exact Bal.refl s
  | cons m rest ih => intro s; exact (bal_do_write m s).trans (ih _)

theorem bal_send_messages (s : Session) : Bal s (send_messages s) := by
  unfold send_messages
  refine Bal.trans ?_ (bal_write_all _ _)
  exact Bal.of_same rfl rfl rfl

theorem bal_dispatch_messages (ms : List Msg) :
    ∀ s : Session, Bal s (dispatch_messages ms s) := by
  induction ms with
  | nil => intro s; exact Bal.refl s
  | cons m rest ih =>
    intro s
    exact (bal_emit_neutral (Effect.on_read_completed m) s rfl rfl).trans (ih _)

/-! ## Reachable states -/

theorem quiescent_of_bal {owners : Int} {s t : Session} (hq : Quiescent owners s)
    (hb : Bal s t) : Quiescent owners t := by
  obtain ⟨h1, h2, h3, h4⟩ := hq
  have b1 := hb.refs
  have b2 := hb.out
  have b3 := hb.margin
  exact ⟨hb.safe owners h1, by omega, by omega, by omega⟩

/-- A continuation that runs a balanced body on the session from which its
operation was taken, then finishes and releases, keeps the books. -/
theorem quiescent_callback {owners : Int} {s body : Session} (i : Nat)
    (hq : Quiescent owners s) (hi : i < s.pending.length)
    (hb : Bal { s with pending := s.pending.eraseIdx i } body) :
    Quiescent owners (release_reference (emit Effect.finished body)) := by
  obtain ⟨h1, h2, h3, h4⟩ := hq
  have b1 := hb.refs
  have b2 := hb.out
  have b3 := hb.margin
  have b4 := hb.safe owners h1
  have hm := ref_safe_margin owners body.log b4
  have hlen : ((s.pending.eraseIdx i).length : Int) = (s.pending.length : Int) - 1 := by
    rw [List.length_eraseIdx_of_lt hi]
    omega
  simp only at b1 b2 b3
  refine ⟨?_, ?_, ?_, ?_⟩
  · simp only [release_reference, emit]
    rw [ref_safe_concat, ref_safe_concat]
    simp only [outstanding_concat, ref_delta_concat, Effect.dref, Effect.dout]
    exact ⟨⟨b4, by omega⟩, by omega⟩
  · simp only [release_reference, emit, ref_delta_concat, Effect.dref]
    omega
  · simp only [release_reference, emit, outstanding_concat, Effect.dout]
    omega
  · simp only [release_reference, emit, outstanding_concat, ref_delta_concat, Effect.dref,
      Effect.dout]
    omega

theorem quiescent_complete {owners : Int} {s : Session} (i : Nat) (err : Int) (length : Nat)
    (msgs : List Msg) (read_next : Int) (hq : Quiescent owners s) :
    Quiescent owners (complete i err length msgs read_next s) := by
  unfold complete
  split
  · exact hq
  · rename_i h
    have hi : i < s.pending.length := by
      rcases List.get?_eq_some.1 h with ⟨hi, _⟩
      exact hi
    unfold connect_callback
    apply quiescent_callback i hq hi
    split
    · exact bal_on_failure_client _
    · refine Bal.trans ?_ (bal_do_read _ _)
      refine Bal.trans ?_ (bal_send_messages _)
      exact Bal.of_same rfl rfl rfl
  · rename_i sz h
    have hi : i < s.pending.length := by
      rcases List.get?_eq_some.1 h with ⟨hi, _⟩
      exact hi
    unfold read_callback
    apply quiescent_callback i hq hi
    split
    · exact bal_on_failure _
    · exact (bal_dispatch_messages _ _).trans (bal_do_read _ _)
  · rename_i m h
    have hi : i < s.pending.length := by
      rcases List.get?_eq_some.1 h with ⟨hi, _⟩
      exact hi
    unfold write_callback
    apply quiescent_callback i hq hi
    split
    · exact bal_on_failure _
    · exact bal_emit_neutral _ _ rfl rfl

theorem quiescent_step {owners : Int} {s : Session} (ev : Event)
    (hq : Quiescent owners s) : Quiescent owners (step s ev) := by
  cases ev with
  | call_connect => exact quiescent_of_bal hq (bal_connect s)
  | call_do_read sz => exact quiescent_of_bal hq (bal_do_read sz s)
  | call_do_write m => exact quiescent_of_bal hq (bal_do_write m s)
  | completion i err length msgs read_next =>
    exact quiescent_complete i err length msgs read_next hq

theorem quiescent_run {owners : Int} (evs : List Event) :
    ∀ s : Session, Quiescent owners s → Quiescent owners (run s evs) := by
  induction evs with
  | nil => intro s hq; exact hq
  | cons ev rest ih => intro s hq; exact ih _ (quiescent_step ev hq)

theorem quiescent_client_new (sock : Int) (remote : Nat × Nat) (owners : Nat)
    (sync_fail : List Bool) (default_read_sz : Int) :
    Quiescent owners (hpc_rpc_client_session_new sock remote owners sync_fail default_read_sz) := by
  simp [Quiescent, hpc_rpc_client_session_new, ref_safe, ref_safe_from, ref_delta,
    outstanding]

theorem quiescent_server_new (sock : Int) (remote : Nat × Nat) (owners : Nat)
    (sync_fail : List Bool) (default_read_sz : Int) :
    Quiescent owners (hpc_rpc_server_session_new sock remote owners sync_fail default_read_sz) := by
  unfold hpc_rpc_server_session_new
  refine quiescent_of_bal ?_ (bal_do_read _ _)
  simp [Quiescent, ref_safe, ref_safe_from, ref_delta, outstanding]

/-! ## What the failure handling leaves untouched in the log -/

theorem issue_pending_of_head (op : Op) (s : Session)
    (h : s.sync_fail.headD false = false) : (issue op s).1 = true := by
  unfold issue
  rw [h]
  rfl

/-! ## The flush of the queue -/

/-- C1.  A freshly created client session on which `connect ()` is called and
whose connect attempts all complete with an error issues exactly four connect
attempts: after the call and after each of the first three failures one more
attempt is pending and nothing is closed; the fourth failure closes the socket
once, notifies `on_disconnected` once, leaves the state `SS_CLOSED` with no
operation pending, and no later completion changes the session. -/
theorem four_failed_connects_then_disconnected (sock : Int) (remote : Nat × Nat)
    (owners : Nat) (dflt : Int) (e1 e2 e3 e4 : Int)
    (h1 : e1 ≠ 0) (h2 : e2 ≠ 0) (h3 : e3 ≠ 0) (h4 : e4 ≠ 0) :
    (connect_attempts (fail_completions [e1, e2, e3, e4]
        (connect (hpc_rpc_client_session_new sock remote owners [] dflt))).log = 4 ∧
      closes (fail_completions [e1, e2, e3, e4]
        (connect (hpc_rpc_client_session_new sock remote owners [] dflt))).log = 1 ∧
      disconnects (fail_completions [e1, e2, e3, e4]
        (connect (hpc_rpc_client_session_new sock remote owners [] dflt))).log = 1 ∧
      (fail_completions [e1, e2, e3, e4]
        (connect (hpc_rpc_client_session_new sock remote owners [] dflt))).state
          = session_state.SS_CLOSED ∧
      (fail_completions [e1, e2, e3, e4]
        (connect (hpc_rpc_client_session_new sock remote owners [] dflt))).pending = [] ∧
      ∀ (i : Nat) (err : Int) (length : Nat) (msgs : List Msg) (read_next : Int),
        complete i err length msgs read_next (fail_completions [e1, e2, e3, e4]
          (connect (hpc_rpc_client_session_new sock remote owners [] dflt)))
        = fail_completions [e1, e2, e3, e4]
          (connect (hpc_rpc_client_session_new sock remote owners [] dflt))) ∧
    (connect_attempts
        (connect (hpc_rpc_client_session_new sock remote owners [] dflt)).log = 1 ∧
      (connect (hpc_rpc_client_session_new sock remote owners [] dflt)).pending
        = [Op.connect]) ∧
    (connect_attempts (fail_completions [e1]
        (connect (hpc_rpc_client_session_new sock remote owners [] dflt))).log = 2 ∧
      (fail_completions [e1]
        (connect (hpc_rpc_client_session_new sock remote owners [] dflt))).pending
          = [Op.connect]) ∧
    (connect_attempts (fail_completions [e1, e2]
        (connect (hpc_rpc_client_session_new sock remote owners [] dflt))).log = 3 ∧
      (fail_completions [e1, e2]
        (connect (hpc_rpc_client_session_new sock remote owners [] dflt))).pending
          = [Op.connect]) ∧
    (connect_attempts (fail_completions [e1, e2, e3]
        (connect (hpc_rpc_client_session_new sock remote owners [] dflt))).log = 4 ∧
      (fail_completions [e1, e2, e3]
        (connect (hpc_rpc_client_session_new sock remote owners [] dflt))).pending
          = [Op.connect] ∧
      closes (fail_completions [e1, e2, e3]
        (connect (hpc_rpc_client_session_new sock remote owners [] dflt))).log = 0 ∧
      disconnects (fail_completions [e1, e2, e3]
        (connect (hpc_rpc_client_session_new sock remote owners [] dflt))).log = 0) := by
  simp [fail_completions, complete, connect_callback, hpc_rpc_client_session_new,
    connect_closed, on_failure_client_retry, on_failure_client_giveup, issue, add_reference,
    release_reference, emit, close, connect_attempts, closes, disconnects, h1, h2, h3, h4]

theorem four_failed_connects_then_disconnected_witness :
    (5 : Int) ≠ 0 ∧
      connect_attempts (fail_completions [5, 5, 5, 5]
        (connect (hpc_rpc_client_session_new 9 (1, 2) 1 [] 256))).log = 4 :=
  ⟨by decide,
    (four_failed_connects_then_disconnected 9 (1, 2) 1 256 5 5 5 5
      (by decide) (by decide) (by decide) (by decide)).1.1⟩

/-- C3.  In every state that a client or a server session reaches through
calls of `connect`, `do_read`, `do_write` and completions of pending
operations, the reference count is what the creator holds plus one per
pending operation, and at every point of the history the count was at least
the number of issued operations whose continuation had not finished: each
reference is taken before the operation is issued and released exactly once
on every path. -/
theorem refcount_covers_unfinished_operations :
    (∀ (sock : Int) (remote : Nat × Nat) (owners : Nat) (sync_fail : List Bool)
        (dflt : Int) (evs : List Event),
        ref_safe owners
            (run (hpc_rpc_client_session_new sock remote owners sync_fail dflt) evs).log ∧
          (run (hpc_rpc_client_session_new sock remote owners sync_fail dflt) evs).refs
            = owners +
              (run (hpc_rpc_client_session_new sock remote owners sync_fail dflt)
                evs).pending.length ∧
          outstanding
              (run (hpc_rpc_client_session_new sock remote owners sync_fail dflt) evs).log
            = (run (hpc_rpc_client_session_new sock remote owners sync_fail dflt)
                evs).pending.length) ∧
    (∀ (sock : Int) (remote : Nat × Nat) (owners : Nat) (sync_fail : List Bool)
        (dflt : Int) (evs : List Event),
        ref_safe owners
            (run (hpc_rpc_server_session_new sock remote owners sync_fail dflt) evs).log ∧
          (run (hpc_rpc_server_session_new sock remote owners sync_fail dflt) evs).refs
            = owners +
              (run (hpc_rpc_server_session_new sock remote owners sync_fail dflt)
                evs).pending.length ∧
          outstanding
              (run (hpc_rpc_server_session_new sock remote owners sync_fail dflt) evs).log
            = (run (hpc_rpc_server_session_new sock remote owners sync_fail dflt)
                evs).pending.length) := by
  constructor
  · intro sock remote owners sync_fail dflt evs
    obtain ⟨h1, h2, h3, h4⟩ :=
      quiescent_run evs _ (quiescent_client_new sock remote owners sync_fail dflt)
    exact ⟨h1, by omega, h3⟩
  · intro sock remote owners sync_fail dflt evs
    obtain ⟨h1, h2, h3, h4⟩ :=
      quiescent_run evs _ (quiescent_server_new sock remote owners sync_fail dflt)
    exact ⟨h1, by omega, h3⟩

/-- C4.  On a client session whose state is `SS_CONNECTING` or `SS_CONNECTED`
the call `connect ()` changes nothing: state, reconnect count, reference
count, pending operations and log are the same.  From `SS_CLOSED`, when the
`ConnectEx` call does not fail at once, the state becomes `SS_CONNECTING` and
one connect operation is issued. -/
theorem connect_noop_unless_closed (s : Session) :
    ((s.state = session_state.SS_CONNECTING ∨ s.state = session_state.SS_CONNECTED) →
        connect s = s) ∧
      (s.state = session_state.SS_CLOSED → s.sync_fail.headD false = false →
        (connect s).state = session_state.SS_CONNECTING ∧
          (connect s).pending = s.pending ++ [Op.connect] ∧
          connect_attempts (connect s).log = connect_attempts s.log + 1 ∧
          (connect s).reconnect_count = s.reconnect_count ∧
          (connect s).refs = s.refs + 1) := by
  constructor
  · intro h
    apply connect_not_closed
    rcases h with h | h <;> simp [h]
  · intro hc hf
    have hp : (issue Op.connect
        (add_reference { s with state := session_state.SS_CONNECTING })).1 = true :=
      issue_pending_of_head _ _ hf
    rw [connect_closed s hc, if_pos hp, issue_pending_eq _ _ hp]
    simp [add_reference, emit, connect_attempts, List.filter_append]

theorem connect_noop_unless_closed_witness :
    connect { hpc_rpc_client_session_new 9 (1, 2) 1 [] 256 with
        state := session_state.SS_CONNECTED }
      = { hpc_rpc_client_session_new 9 (1, 2) 1 [] 256 with
        state := session_state.SS_CONNECTED } :=
  (connect_noop_unless_closed _).1 (Or.inr rfl)

/-- What `create_tcp_socket` returns: the failure value when the creation or
the bind failed, and otherwise 0, whatever descriptor was created and
whatever the option calls returned. -/
theorem create_tcp_socket_result (addr : Option SockAddr) (env : SockEnv) :
    (create_tcp_socket addr env).1 =
      if env.socket_ret = -1 ∨ (addr.isSome = true ∧ env.bind_ret ≠ 0) then -1 else 0 := by
  unfold create_tcp_socket
  by_cases h : env.socket_ret = -1
  · simp [h]
  · cases addr with
    | none => simp [h]
    | some a =>
      by_cases hb : env.bind_ret = 0
      · simp [h, hb]
      · simp [h, hb]

/-- C5.  The socket creation succeeds with descriptor 5, every option call
succeeds and no bind address is given: `create_tcp_socket` returns 0, not the
descriptor. -/
theorem create_tcp_socket_loses_descriptor :
    (create_tcp_socket none
        { socket_ret := 5, nodelay_ret := 0, dontlinger_ret := 0, sndbuf_ret := 0,
          rcvbuf_ret := 0, keepalive_ret := 0, bind_ret := 0 }).1 = 0 ∧
      (create_tcp_socket none
        { socket_ret := 5, nodelay_ret := 0, dontlinger_ret := 0, sndbuf_ret := 0,
          rcvbuf_ret := 0, keepalive_ret := 0, bind_ret := 0 }).1 ≠ 5 := by
  decide

/-- C6 as stated fails: after a successful first `start` with
`client_only = true` a second `start` returns `ERR_OK` again. -/
theorem second_start_after_client_only_start_accepted :
    start (hpc_network_provider_new (-1)) rpc_channel.RPC_CHANNEL_TCP 8080 true
        { hostname := 1,
          sock := { socket_ret := 5, nodelay_ret := 0, dontlinger_ret := 0, sndbuf_ret := 0,
                    rcvbuf_ret := 0, keepalive_ret := 0, bind_ret := 0 },
          reuseaddr_ret := 0, listen_ret := 0 }
      = some (error_code.ERR_OK,
          { hpc_network_provider_new (-1) with address := (1, 8080) }) ∧
    start { hpc_network_provider_new (-1) with address := (1, 8080) }
        rpc_channel.RPC_CHANNEL_TCP 8080 true
        { hostname := 1,
          sock := { socket_ret := 5, nodelay_ret := 0, dontlinger_ret := 0, sndbuf_ret := 0,
                    rcvbuf_ret := 0, keepalive_ret := 0, bind_ret := 0 },
          reuseaddr_ret := 0, listen_ret := 0 }
      = some (error_code.ERR_OK,
          { hpc_network_provider_new (-1) with address := (1, 8080) }) := by
  decide

/-- C6, amended.  After a first `start` that returned `ERR_OK`, a second
`start` (with any arguments, before any teardown) is rejected with
`ERR_SERVICE_ALREADY_RUNNING`, leaving the provider unchanged, exactly when the
first one was made with `client_only = false`, that is when it created the
listening socket. -/
theorem second_start_rejected_iff_listening (p p' : Provider) (channel : rpc_channel)
    (port : Int) (client_only : Bool) (env : StartEnv)
    (h : start p channel port client_only env = some (error_code.ERR_OK, p'))
    (channel2 : rpc_channel) (port2 : Int) (client_only2 : Bool) (env2 : StartEnv) :
    start p' channel2 port2 client_only2 env2
        = some (error_code.ERR_SERVICE_ALREADY_RUNNING, p') ↔ client_only = false := by
  unfold start at h
  by_cases hl : p.listen_fd = -1
  · by_cases hch : channel = rpc_channel.RPC_CHANNEL_TCP ∨ channel = rpc_channel.RPC_CHANNEL_UDP
    · cases client_only with
      | true =>
        simp [hl, hch] at h
        subst h
        unfold start
        by_cases hch2 : channel2 = rpc_channel.RPC_CHANNEL_TCP ∨
            channel2 = rpc_channel.RPC_CHANNEL_UDP
        · cases client_only2
          · simp only [hl, hch2]
            simp
            intro _
            split <;> simp
          · simp [hl, hch2]
        · simp [hl, hch2]
      | false =>
        by_cases hc : (create_tcp_socket (some (INADDR_ANY, htons port)) env.sock).1 = -1
        · simp [hl, hch, hc] at h
        · by_cases hli : env.listen_ret = 0
          · simp [hl, hch, hc, hli] at h
            subst h
            unfold start
            simp [hc]
          · simp [hl, hch, hc, hli] at h
    · simp [hl, hch] at h
  · simp [hl] at h

theorem second_start_rejected_iff_listening_witness :
    start { hpc_network_provider_new (-1) with
              address := (1, 8080), listen_fd := 0, bound_handles := [0] }
        rpc_channel.RPC_CHANNEL_TCP 9090 true
        { hostname := 1,
          sock := { socket_ret := 5, nodelay_ret := 0, dontlinger_ret := 0, sndbuf_ret := 0,
                    rcvbuf_ret := 0, keepalive_ret := 0, bind_ret := 0 },
          reuseaddr_ret := 0, listen_ret := 0 }
      = some (error_code.ERR_SERVICE_ALREADY_RUNNING,
          { hpc_network_provider_new (-1) with
              address := (1, 8080), listen_fd := 0, bound_handles := [0] }) :=
  (second_start_rejected_iff_listening (hpc_network_provider_new (-1))
    { hpc_network_provider_new (-1) with
        address := (1, 8080), listen_fd := 0, bound_handles := [0] }
    rpc_channel.RPC_CHANNEL_TCP 8080 false
    { hostname := 1,
      sock := { socket_ret := 5, nodelay_ret := 0, dontlinger_ret := 0, sndbuf_ret := 0,
                rcvbuf_ret := 0, keepalive_ret := 0, bind_ret := 0 },
      reuseaddr_ret := 0, listen_ret := 0 }
    (by decide) rpc_channel.RPC_CHANNEL_TCP 9090 true
    { hostname := 1,
      sock := { socket_ret := 5, nodelay_ret := 0, dontlinger_ret := 0, sndbuf_ret := 0,
                rcvbuf_ret := 0, keepalive_ret := 0, bind_ret := 0 },
      reuseaddr_ret := 0, listen_ret := 0 }).2 rfl

/-- C7.  A client session exhausts its reconnect budget (four failed connect
completions, the socket is closed), then `connect ()` is called again and that
attempt fails as well: the socket is closed a second time. -/
theorem socket_closed_twice_after_budget_exhausted :
    closes (run (hpc_rpc_client_session_new 9 (1, 2) 1 [] 256)
      [Event.call_connect, Event.completion 0 5 0 [] 0, Event.completion 0 5 0 [] 0,
       Event.completion 0 5 0 [] 0, Event.completion 0 5 0 [] 0]).log = 1 ∧
    closes (run (hpc_rpc_client_session_new 9 (1, 2) 1 [] 256)
      [Event.call_connect, Event.completion 0 5 0 [] 0, Event.completion 0 5 0 [] 0,
       Event.completion 0 5 0 [] 0, Event.completion 0 5 0 [] 0,
       Event.call_connect, Event.completion 0 5 0 [] 0]).log = 2 := by
  simp [run, step, complete, connect_callback, hpc_rpc_client_session_new, connect_closed,
    on_failure_client_retry, on_failure_client_giveup, issue, add_reference,
    release_reference, emit, close, closes]

/-- C8.  A listening provider whose member `_accept_event.s` is -1 accepts a
connection on socket 7: one server session is handed to the engine, with the
peer address of socket 7, but its socket handle is -1, not 7. -/
theorem accepted_session_not_on_accepted_socket :
    (on_events_ready
        { hpc_network_provider_new (-1) with
            address := (1, 8080), listen_fd := 0, bound_handles := [0] }
        1
        { accept_ret := 7,
          getpeername := fun fd => if fd = 7 then some (167772161, 40000) else none,
          sync_fail := [], default_read_sz := 256 }).map
      (fun q => q.accepted.map (fun s => (s.rw_fd, s.remote_addr)))
      = some [(-1, (167772161, 40000))] := by
  simp [on_events_ready, hpc_rpc_server_session_new, hpc_network_provider_new, do_read,
    issue, add_reference, emit]

/-- C10.  An established client session has a read and a write pending and
both complete with an error: after the first failure one connect attempt is
pending, after the second failure two connect attempts of the same session are
pending at the same time. -/
theorem two_connects_pending_after_read_and_write_fail :
    (run (hpc_rpc_client_session_new 9 (1, 2) 1 [] 256)
      [Event.call_connect, Event.completion 0 0 0 [] 0, Event.call_do_write 7]).pending
      = [Op.recv 256, Op.send 7] ∧
    (run (hpc_rpc_client_session_new 9 (1, 2) 1 [] 256)
      [Event.call_connect, Event.completion 0 0 0 [] 0, Event.call_do_write 7,
       Event.completion 0 5 0 [] 0]).pending
      = [Op.send 7, Op.connect] ∧
    (run (hpc_rpc_client_session_new 9 (1, 2) 1 [] 256)
      [Event.call_connect, Event.completion 0 0 0 [] 0, Event.call_do_write 7,
       Event.completion 0 5 0 [] 0, Event.completion 0 5 0 [] 0]).pending
      = [Op.connect, Op.connect] := by
  simp [run, step, complete, connect_callback, read_callback, write_callback, do_read,
    do_write, send_messages, write_all, on_failure, hpc_rpc_client_session_new,
    connect_closed, on_failure_client_retry, on_failure_client_giveup, issue,
    add_reference, release_reference, emit, close]

end HpcNet
